import Mathlib

/-
Verification of `pytorch_lightning/utilities/auto_restart.py`.

The module implements resumable iteration: `FastForwardSampler` wraps a
sampler and counts yielded items so iteration can be fast-forwarded after a
restore; `CaptureIterableDataset` attaches per-item sampler state to batches
and a static stripping function removes it again; worker-cycle helpers
(`fetch_previous_worker_state_dict`, `cycle_to_next_worker`) reconcile the
rotating worker-selection cursor of a multiprocessing dataloader iterator.

Modelling conventions (shallow embedding):
- The worker id, resolved in Python from the ambient `get_worker_info()`, is
  threaded as an explicit `wid : Nat` parameter.
- A sampler state dict `Dict[int, Dict[str, int]]` (worker id to the single
  key "current_iteration") becomes an association list `List (Nat × Nat)`.
- The wrapped sampler is an explicit deterministic item list handed to the
  iteration functions.
- Raised exceptions (KeyError, AssertionError, TypeError) are modelled with
  `Option`/`Except` results.
-/

/-- Sampler state dict: association list from worker id to the recorded
`current_iteration` value (Python `Dict[int, Dict[str, int]]`). -/
abbrev StateDict := List (Nat × Nat)

/-- The mutable fields of a `FastForwardSampler` set in `__init__`:
`restarting`, `_current_iteration`, `_dataloader_batch_size`,
`_cached_state_dict`. The wrapped sampler is passed separately to the
iteration functions as an explicit item list. -/
structure FastForwardSampler where
  restarting : Bool
  current_iteration : Nat
  dataloader_batch_size : Option Nat
  cached_state_dict : Option StateDict
deriving DecidableEq, Repr

namespace FastForwardSampler

/-- State of a freshly constructed `FastForwardSampler` (its `__init__`). -/
def init : FastForwardSampler :=
  { restarting := false
    current_iteration := 0
    dataloader_batch_size := none
    cached_state_dict := none }

/-- `FastForwardSampler.setup`: records the dataloader batch size. -/
def setup (s : FastForwardSampler) (dataloader_batch_size : Option Nat) :
    FastForwardSampler :=
  { s with dataloader_batch_size := dataloader_batch_size }

/-- `FastForwardSampler._compute_current_iteration`: the explicitly supplied
`num_batches_processed` takes precedence over the internal counter; the Python
guard `if self._dataloader_batch_size:` is truthiness, so a batch size of
`None` or `0` leaves the count unscaled. -/
def compute_current_iteration (s : FastForwardSampler)
    (num_batches_processed : Option Nat) : Nat :=
  let current_iteration :=
    match num_batches_processed with
    | some n => n
    | none => s.current_iteration
  match s.dataloader_batch_size with
  | some m => if m = 0 then current_iteration else current_iteration * m
  | none => current_iteration

/-- `FastForwardSampler.state_dict`: a one-entry dict keyed by the current
worker id. -/
def state_dict (s : FastForwardSampler) (wid : Nat)
    (num_batches_processed : Option Nat) : StateDict :=
  [(wid, s.compute_current_iteration num_batches_processed)]

/-- `FastForwardSampler.load_state_dict`. With more than one worker entry and
workers not yet initialized, the whole dict is cached (deep copy; the counter
is not written) and `restarting` is set from the current worker's entry;
otherwise the current worker's entry is applied immediately. A missing entry
for the current worker id raises KeyError, modelled as `none`. -/
def load_state_dict (s : FastForwardSampler) (wid : Nat)
    (state_dict : StateDict) (workers_initialized : Bool) :
    Option FastForwardSampler :=
  if 1 < state_dict.length ∧ workers_initialized = false then
    match List.lookup wid state_dict with
    | some ci =>
        some { s with cached_state_dict := some state_dict
                      restarting := decide (0 < ci) }
    | none => none
  else
    match List.lookup wid state_dict with
    | some ci =>
        some { s with current_iteration := ci
                      restarting := decide (0 < ci) }
    | none => none

/-- Normal-mode loop of `FastForwardSampler.__iter__` (taken when
`restarting` is false at generator start): yield every item of the wrapped
sampler, incrementing the counter per yield; on exhaustion the epilogue
resets the counter to zero. Returns the yielded items and the final state. -/
def iterNormal (s : FastForwardSampler) :
    List α → List α × FastForwardSampler
  | [] => ([], { s with current_iteration := 0 })
  | b :: bs =>
    let step := iterNormal { s with current_iteration := s.current_iteration + 1 } bs
    (b :: step.1, step.2)

/-- Restart-mode loop of `FastForwardSampler.__iter__` over the enumerated
wrapped sampler starting at index `i`. Per item: if a cached state dict is
pending and contains the current worker id, it is applied (the source calls
`load_state_dict(cached, workers_initialized=True)`, which writes the
counter and `restarting` from that worker's entry) and the cache is cleared,
all before the position filter `current_iteration <= i` decides whether the
item is yielded (incrementing the counter) or silently dropped. The epilogue
resets the counter to zero. -/
def iterRestart (wid : Nat) :
    FastForwardSampler → Nat → List α → List α × FastForwardSampler
  | s, _, [] => ([], { s with current_iteration := 0 })
  | s, i, b :: bs =>
    let s1 :=
      match s.cached_state_dict with
      | some sd =>
        match List.lookup wid sd with
        | some ci =>
            { s with current_iteration := ci
                     restarting := decide (0 < ci)
                     cached_state_dict := none }
        | none => s
      | none => s
    if s1.current_iteration ≤ i then
      let step := iterRestart wid
        { s1 with current_iteration := s1.current_iteration + 1 } (i + 1) bs
      (b :: step.1, step.2)
    else
      iterRestart wid s1 (i + 1) bs

/-- A full pass of `FastForwardSampler.__iter__` over the wrapped sampler's
item list: the mode is chosen from `restarting` when the generator starts. -/
def iter (wid : Nat) (s : FastForwardSampler) (xs : List α) :
    List α × FastForwardSampler :=
  if s.restarting then iterRestart wid s 0 xs else iterNormal s xs

/-- Partial consumption of a normal-mode `__iter__` pass: the generator state
after exactly `k` items were requested (the epilogue has not yet run when
`k` is less than the number of available items). -/
def iterNormalTake (s : FastForwardSampler) :
    List α → Nat → List α × FastForwardSampler
  | _, 0 => ([], s)
  | [], _ + 1 => ([], { s with current_iteration := 0 })
  | b :: bs, k + 1 =>
    let step := iterNormalTake { s with current_iteration := s.current_iteration + 1 } bs k
    (b :: step.1, step.2)

end FastForwardSampler

/-- Result of a Python attribute lookup that can also produce Python `None`
(as `getattr(obj, key, None)` does on a miss). -/
inductive AttrResult (V : Type) where
  | val (v : V)
  | pynone
deriving DecidableEq, Repr

/-- Python attribute lookup on a plain object, modelled as a finite attribute
map: a missing key raises AttributeError (`Except.error`). -/
def pyGetattr (attrs : List (String × V)) (key : String) : Except Unit V :=
  match List.lookup key attrs with
  | some v => .ok v
  | none => .error ()

/-- `FastForwardSampler.__getattr__`: first the (already failed) instance-dict
check `if key in self.__dict__`, then `getattr(self._sampler, key, None)`,
whose default swallows the miss and yields Python `None`. -/
def ffsGetattrFallback (selfAttrs samplerAttrs : List (String × V))
    (key : String) : AttrResult V :=
  match List.lookup key selfAttrs with
  | some v => .val v
  | none =>
    match List.lookup key samplerAttrs with
    | some v => .val v
    | none => .pynone

/-- Full attribute protocol on a `FastForwardSampler` instance: the normal
lookup over the instance attributes, and on its AttributeError the
`__getattr__` hook. -/
def ffsAttributeAccess (selfAttrs samplerAttrs : List (String × V))
    (key : String) : Except Unit (AttrResult V) :=
  match pyGetattr selfAttrs key with
  | .ok v => .ok (.val v)
  | .error _ => .ok (ffsGetattrFallback selfAttrs samplerAttrs key)

/-- A live dataloader iterator: either a `_MultiProcessingDataLoaderIter`
(with its `_num_workers`, the position of its `_worker_queue_idx_cycle`
cursor over `range(num_workers)`, and a counter of `_reset` invocations) or
any other iterator, which only carries `_num_workers`. -/
inductive LiveIter where
  | multi (num_workers : Nat) (cyclePos : Nat) (resetCount : Nat)
  | single (num_workers : Nat)
deriving DecidableEq, Repr

/-- The `_num_workers` attribute of a live iterator. -/
def LiveIter.numWorkers : LiveIter → Nat
  | .multi nw _ _ => nw
  | .single nw => nw

/-- One `next()` on `itertools.cycle(range(nw))`: returns the element at the
cursor and the advanced cursor position. -/
def cycleNext (nw pos : Nat) : Nat × Nat := (pos % nw, (pos + 1) % nw)

/-- The rotation loop `while next(cycle) != target: pass`, with explicit fuel:
`nw` steps always suffice since the cycle visits every residue once per
revolution. Returns the cursor position after the step that hit `target`. -/
def spinTo (nw : Nat) : Nat → Nat → Nat → Nat
  | 0, pos, _ => pos
  | fuel + 1, pos, target =>
    let step := cycleNext nw pos
    if step.1 = target then step.2 else spinTo nw fuel step.2 target

/-- Worker-cycle bookkeeping entry `{"num_workers": ..., "previous_worker": ...}`
appended by `fetch_previous_worker_state_dict`. -/
structure WorkerCycleState where
  num_workers : Nat
  previous_worker : Option Nat
deriving DecidableEq, Repr

/-- `fetch_previous_worker_state_dict`: on a multiprocessing iterator, one
cursor step gives `next_worker`, `previous_worker` is the Python
`(next_worker - 1) % num_workers` (here `(next_worker + (nw - 1)) % nw`), and
the cursor is spun until it lands one step past `previous_worker`; any other
iterator records `previous_worker = None`. Returns the appended entry and the
iterator with its advanced cursor. -/
def fetch_previous_worker_state_dict (it : LiveIter) :
    WorkerCycleState × LiveIter :=
  match it with
  | .multi nw pos rc =>
    let step := cycleNext nw pos
    let next_worker := step.1 % nw
    let previous_worker := (next_worker + (nw - 1)) % nw
    let pos2 := spinTo nw nw step.2 previous_worker
    ({ num_workers := nw, previous_worker := some previous_worker },
      .multi nw pos2 rc)
  | .single nw => ({ num_workers := nw, previous_worker := none }, .single nw)

/-- `cycle_to_next_worker`: asserts the saved `num_workers` matches the live
iterator's count before touching anything (AssertionError otherwise, modelled
as `Except.error` carrying the iterator state at raise time — unchanged,
since the assert comes first). On a multiprocessing iterator the cursor is
rewound to zero, advanced `previous_worker - 1` further steps (Python
`range(previous_worker - 1)`, empty when `previous_worker` is 0), and
`_reset(..., first_iter=True)` is triggered; a `previous_worker` of `None`
raises TypeError after the rewind. The trailing local `count += 1` has no
observable effect. -/
def cycle_to_next_worker (it : LiveIter) (current : WorkerCycleState) :
    Except LiveIter LiveIter :=
  if current.num_workers = it.numWorkers then
    match it with
    | .multi nw pos rc =>
      let pos1 := spinTo nw nw pos 0
      match current.previous_worker with
      | some p => .ok (.multi nw ((pos1 + (p - 1)) % nw) (rc + 1))
      | none => .error (.multi nw pos1 rc)
    | .single nw => .ok (.single nw)
  else
    .error it

/-- A dataloader's `sampler` or `batch_sampler` slot: either a
`FastForwardSampler` or any other sampler (tagged, opaque). -/
inductive SamplerSlot where
  | ffs (s : FastForwardSampler)
  | plain (tag : Nat)
deriving DecidableEq, Repr

/-- The two sampler slots of a `DataLoader` that
`find_fast_forward_samplers` inspects. -/
structure PLDataLoader where
  sampler : SamplerSlot
  batch_sampler : SamplerSlot
deriving DecidableEq, Repr

/-- `find_fast_forward_samplers`: the dataloader's `sampler` if it is a
`FastForwardSampler`, else its `batch_sampler` if that is one, else an
implicit `None`. -/
def find_fast_forward_samplers (dl : PLDataLoader) :
    Option FastForwardSampler :=
  match dl.sampler with
  | .ffs s => some s
  | .plain _ =>
    match dl.batch_sampler with
    | .ffs s => some s
    | .plain _ => none

/-- One per-stage entry of a serialized pipeline state list: the optional
worker bookkeeping keys and the optional `"sampler"` key. -/
structure StageEntry where
  num_workers : Option Nat
  previous_worker : Option (Option Nat)
  sampler : Option StateDict
deriving DecidableEq, Repr

/-- `dataloader_load_state_dict`: when a `FastForwardSampler` is found in
either slot, `state_dict[0]["sampler"]` is loaded into it (IndexError on an
empty list and KeyError on a missing `"sampler"` key modelled as `none`);
otherwise the function returns without touching the dataloader. -/
def dataloader_load_state_dict (wid : Nat) (dl : PLDataLoader)
    (state : List StageEntry) : Option PLDataLoader :=
  match dl.sampler with
  | .ffs s => do
    let entry ← state.get? 0
    let sd ← entry.sampler
    let s1 ← s.load_state_dict wid sd false
    some { dl with sampler := .ffs s1 }
  | .plain _ =>
    match dl.batch_sampler with
    | .ffs s => do
      let entry ← state.get? 0
      let sd ← entry.sampler
      let s1 ← s.load_state_dict wid sd false
      some { dl with batch_sampler := .ffs s1 }
    | .plain _ => some dl

/-- A key of a Python dict appearing in a collated batch: a string key or an
integer worker-id key. -/
inductive PyKey where
  | str (s : String)
  | int (n : Nat)
deriving DecidableEq, Repr

mutual
/-- A Python value appearing in a collated batch, mirroring the dispatch of
`CaptureIterableDataset._sanetize_batch_from_sampler_state`: mappings,
sequences (tuple-like `namedtup` kept apart since it is rebuilt with
`elem_type(*out)`), dataclass instances, and the scalar leaves — ints,
strings (a `Sequence` but explicitly excluded), and tensors of collated
integer values (`[-1].item()` takes the last element). -/
inductive PyVal where
  | int (n : Nat)
  | str (s : String)
  | tensor (xs : List Nat)
  | dict (entries : PyEntries)
  | seq (items : PyList)
  | namedtup (items : PyList)
  | dataclass (fields : PyFields)

/-- Spine of a Python dict's ordered `(key, value)` items. -/
inductive PyEntries where
  | nil
  | cons (k : PyKey) (v : PyVal) (rest : PyEntries)

/-- Spine of a Python list's items. -/
inductive PyList where
  | nil
  | cons (v : PyVal) (rest : PyList)

/-- Spine of a dataclass's ordered `(field name, value)` pairs. -/
inductive PyFields where
  | nil
  | cons (name : String) (v : PyVal) (rest : PyFields)
end

/-- Modelled from the spec: the special composite-state marker key
`AutoRestartBatchKeys.PL_SAMPLERS` (its defining module
`pytorch_lightning/utilities/enums.py` is not part of the sources; the
claims do not depend on the literal value, only on it being a fixed key). -/
def PL_SAMPLERS : String := "pl_samplers"

/-- Python `d[key]` on a dict spine (first matching key). -/
def PyEntries.lookupKey : PyEntries → PyKey → Option PyVal
  | .nil, _ => none
  | .cons k v rest, key => if k = key then some v else rest.lookupKey key

/-- The removal effect of Python `d.pop(key)`: the dict without its first
entry for `key`. -/
def PyEntries.removeKey : PyEntries → PyKey → PyEntries
  | .nil, _ => .nil
  | .cons k v rest, key => if k = key then rest else .cons k v (rest.removeKey key)

/-- Concatenation of dict spines. -/
def PyEntries.append : PyEntries → PyEntries → PyEntries
  | .nil, ys => ys
  | .cons k v rest, ys => .cons k v (rest.append ys)

/-- The loop `for sampler_name, sampler_state_dict in v.items():` of the
marker branch, run after `v.pop("id")`: for each sampler it reads
`sampler_state_dict[worker_id]["current_iteration"][-1].item()` and builds
the entry `{sampler_name: {worker_id: {"current_iteration": scalar}}}`; any
shape violation (missing key, non-tensor count, empty tensor) raises and is
modelled as `none`. -/
def extractSamplerStates (wid : Nat) : PyEntries → Option PyEntries
  | .nil => some .nil
  | .cons k sv rest =>
    match sv with
    | .dict svd =>
      match svd.lookupKey (.int wid) with
      | some (.dict inner) =>
        match inner.lookupKey (.str "current_iteration") with
        | some (.tensor cs) =>
          match cs.getLast? with
          | some ci =>
            match extractSamplerStates wid rest with
            | some tail =>
              some (.cons k (.dict (.cons (.int wid)
                (.dict (.cons (.str "current_iteration") (.int ci) .nil)) .nil)) tail)
            | none => none
          | none => none
        | _ => none
      | _ => none
    | _ => none

mutual
/-- `CaptureIterableDataset._sanetize_batch_from_sampler_state`, with the
in-place effects made explicit. `sanitize data acc = some (post, ret, acc')`
states that the call returns `ret` and leaves the accumulator list at `acc'`,
and that the input object graph under `data` is afterwards worth `post` (the
only in-place mutation is `v.pop("id")` on each processed marker value);
`none` models a raised exception. A mapping is walked entry by entry; on the
marker key, the worker id is `v.pop("id")[-1].item()`, the per-sampler states
are extracted and appended to the accumulator once, and `data["data"]` — the
post-mutation value stored under the `"data"` key of the whole mapping — is
returned, discarding the walk's partial output. Sequences, namedtuples and
dataclasses are rebuilt element-wise with the same constructor; all other
values are returned as they are. -/
def sanitize : PyVal → List PyVal → Option (PyVal × PyVal × List PyVal)
  | .dict entries, acc => sanitizeDict entries .nil .nil acc
  | .seq items, acc =>
    match sanitizeSeq items acc with
    | some (post, ret, acc1) => some (.seq post, .seq ret, acc1)
    | none => none
  | .namedtup items, acc =>
    match sanitizeSeq items acc with
    | some (post, ret, acc1) => some (.namedtup post, .namedtup ret, acc1)
    | none => none
  | .dataclass fields, acc =>
    match sanitizeFields fields acc with
    | some (post, ret, acc1) => some (.dataclass post, .dataclass ret, acc1)
    | none => none
  | v, acc => some (v, v, acc)

/-- The mapping loop of `_sanetize_batch_from_sampler_state`: `postAcc` and
`outAcc` hold the already-walked prefix (post-mutation input values and
recursively sanitized outputs respectively), in order. -/
def sanitizeDict :
    PyEntries → PyEntries → PyEntries → List PyVal →
    Option (PyVal × PyVal × List PyVal)
  | .nil, postAcc, outAcc, acc => some (.dict postAcc, .dict outAcc, acc)
  | .cons k v rest, postAcc, outAcc, acc =>
    if k = .str PL_SAMPLERS then
      match v with
      | .dict ventries =>
        match ventries.lookupKey (.str "id") with
        | some (.tensor ws) =>
          match ws.getLast? with
          | some wid =>
            match extractSamplerStates wid (ventries.removeKey (.str "id")) with
            | some stEntries =>
              match (postAcc.append (.cons k
                  (.dict (ventries.removeKey (.str "id"))) rest)).lookupKey
                  (.str "data") with
              | some d =>
                some (.dict (postAcc.append (.cons k
                    (.dict (ventries.removeKey (.str "id"))) rest)), d,
                  acc ++ [.dict stEntries])
              | none => none
            | none => none
          | none => none
        | _ => none
      | _ => none
    else
      match sanitize v acc with
      | some (postV, retV, acc1) =>
        sanitizeDict rest (postAcc.append (.cons k postV .nil))
          (outAcc.append (.cons k retV .nil)) acc1
      | none => none

/-- The element loop shared by the sequence and namedtuple branches. -/
def sanitizeSeq : PyList → List PyVal → Option (PyList × PyList × List PyVal)
  | .nil, acc => some (.nil, .nil, acc)
  | .cons v rest, acc =>
    match sanitize v acc with
    | some (postV, retV, acc1) =>
      match sanitizeSeq rest acc1 with
      | some (postRest, retRest, acc2) =>
        some (.cons postV postRest, .cons retV retRest, acc2)
      | none => none
    | none => none

/-- The field loop of the dataclass branch. -/
def sanitizeFields :
    PyFields → List PyVal → Option (PyFields × PyFields × List PyVal)
  | .nil, acc => some (.nil, .nil, acc)
  | .cons name v rest, acc =>
    match sanitize v acc with
    | some (postV, retV, acc1) =>
      match sanitizeFields rest acc1 with
      | some (postRest, retRest, acc2) =>
        some (.cons name postV postRest, .cons name retV retRest, acc2)
      | none => none
    | none => none
end

mutual
/-- A batch value free of the composite-state marker key at every nesting
level. -/
def markerFree : PyVal → Bool
  | .dict entries => markerFreeEntries entries
  | .seq items => markerFreeList items
  | .namedtup items => markerFreeList items
  | .dataclass fields => markerFreeFields fields
  | _ => true

/-- Marker-freeness of a dict spine. -/
def markerFreeEntries : PyEntries → Bool
  | .nil => true
  | .cons k v rest =>
    if k = PyKey.str PL_SAMPLERS then false
    else markerFree v && markerFreeEntries rest

/-- Marker-freeness of a list spine. -/
def markerFreeList : PyList → Bool
  | .nil => true
  | .cons v rest => markerFree v && markerFreeList rest

/-- Marker-freeness of a dataclass field spine. -/
def markerFreeFields : PyFields → Bool
  | .nil => true
  | .cons _ v rest => markerFree v && markerFreeFields rest
end

mutual
/-- Size of a batch value, for strong induction over the mutual family. -/
def szV : PyVal → Nat
  | .dict entries => szE entries + 1
  | .seq items => szL items + 1
  | .namedtup items => szL items + 1
  | .dataclass fields => szF fields + 1
  | _ => 1

/-- Size of a dict spine. -/
def szE : PyEntries → Nat
  | .nil => 0
  | .cons _ v rest => szV v + szE rest + 1

/-- Size of a list spine. -/
def szL : PyList → Nat
  | .nil => 0
  | .cons v rest => szV v + szL rest + 1

/-- Size of a dataclass field spine. -/
def szF : PyFields → Nat
  | .nil => 0
  | .cons _ v rest => szV v + szF rest + 1
end

theorem iterNormal_spec (s : FastForwardSampler) (xs : List α) :
    FastForwardSampler.iterNormal s xs = (xs, { s with current_iteration := 0 }) := by
  induction xs generalizing s with
  | nil => rfl
  | cons b bs ih => simp [FastForwardSampler.iterNormal, ih]

theorem iterRestart_counter_zero (wid : Nat) (xs : List α) :
    ∀ (s : FastForwardSampler) (i : Nat),
      (FastForwardSampler.iterRestart wid s i xs).2.current_iteration = 0 := by
  induction xs with
  | nil => intro s i; rfl
  | cons b bs ih =>
    intro s i
    rw [FastForwardSampler.iterRestart]
    split
    · exact ih _ _
    · exact ih _ _

theorem iterRestart_no_cache (wid : Nat) (xs : List α) :
    ∀ (s : FastForwardSampler) (i : Nat), s.cached_state_dict = none →
      FastForwardSampler.iterRestart wid s i xs =
        (xs.drop (s.current_iteration - i), { s with current_iteration := 0 }) := by
  induction xs with
  | nil => intro s i hc; simp [FastForwardSampler.iterRestart]
  | cons b bs ih =>
    intro s i hc
    rw [FastForwardSampler.iterRestart]
    simp only [hc]
    by_cases h : s.current_iteration ≤ i
    · rw [if_pos h]
      rw [ih _ _ (by simp)]
      have h0 : s.current_iteration - i = 0 := by omega
      have h1 : s.current_iteration + 1 - (i + 1) = 0 := by omega
      simp [h0, h1]
    · rw [if_neg h]
      rw [ih _ _ hc]
      have h1 : s.current_iteration - i = (s.current_iteration - (i + 1)) + 1 := by
        omega
      rw [h1, List.drop_succ_cons, hc]

theorem iterNormalTake_spec (xs : List α) :
    ∀ (s : FastForwardSampler) (k : Nat), k ≤ xs.length →
      FastForwardSampler.iterNormalTake s xs k =
        (xs.take k, { s with current_iteration := s.current_iteration + k }) := by
  induction xs with
  | nil =>
    intro s k hk
    have hk0 : k = 0 := by simpa using hk
    subst hk0
    simp [FastForwardSampler.iterNormalTake]
  | cons b bs ih =>
    intro s k hk
    cases k with
    | zero => simp [FastForwardSampler.iterNormalTake]
    | succ k =>
      rw [FastForwardSampler.iterNormalTake]
      rw [ih _ k (by simpa using hk)]
      have h1 : s.current_iteration + 1 + k = s.current_iteration + (k + 1) := by
        omega
      simp [h1]

/-- C1: fast-forward correctness — a fresh sampler that consumed exactly `k`
of `N` items in normal mode, whose `state_dict()` is loaded into a second
fresh sampler resolving to the same worker id, yields on iteration over an
equivalent fresh producer exactly the remaining `N - k` items in order (the
list `xs.drop k`: no duplicates, no gaps). -/
theorem fast_forward_correctness (wid k : Nat) (xs : List α)
    (hk : k < xs.length) :
    (FastForwardSampler.init.load_state_dict wid
        ((FastForwardSampler.init.iterNormalTake xs k).2.state_dict wid none)
        false).map
      (fun s1 => (FastForwardSampler.iter wid s1 xs).1) = some (xs.drop k) := by
  rw [iterNormalTake_spec xs _ k (le_of_lt hk)]
  simp only [FastForwardSampler.state_dict, FastForwardSampler.compute_current_iteration,
    FastForwardSampler.init, FastForwardSampler.load_state_dict]
  simp only [List.length_cons, List.length_nil, List.lookup, beq_self_eq_true]
  norm_num
  rcases Nat.eq_zero_or_pos k with hk0 | hkpos
  · subst hk0
    simp [FastForwardSampler.iter, iterNormal_spec]
  · have hrest : decide (0 < k) = true := by simpa using hkpos
    simp only [FastForwardSampler.iter, hrest, if_true]
    rw [iterRestart_no_cache wid xs _ 0 rfl]
    simp

theorem fast_forward_correctness_witness :
    (3 < ([10, 11, 12, 13, 14] : List Nat).length) ∧
    (FastForwardSampler.init.load_state_dict 0
        ((FastForwardSampler.init.iterNormalTake
          ([10, 11, 12, 13, 14] : List Nat) 3).2.state_dict 0 none)
        false).map
      (fun s1 => (FastForwardSampler.iter 0 s1 ([10, 11, 12, 13, 14] : List Nat)).1) =
      some [13, 14] :=
  ⟨by decide, fast_forward_correctness 0 3 [10, 11, 12, 13, 14] (by decide)⟩

/-- C2: deferred multi-worker restore — loading a state dict with more than
one worker entry while workers are uninitialized caches the whole dict
verbatim without touching the counter, and sets `restarting` true iff the
current worker's cached count is positive; on the next restart-mode
iteration step whose cache holds the current worker's id, the cached entry
is applied and the cache cleared before the position filter runs for that
item (the step computes exactly as if the entry had already been applied). -/
theorem deferred_multi_worker_restore {α : Type} (wid ci : Nat)
    (sd : StateDict) (s : FastForwardSampler) (hlen : 1 < sd.length)
    (hw : List.lookup wid sd = some ci) :
    s.load_state_dict wid sd false =
      some { s with cached_state_dict := some sd
                    restarting := decide (0 < ci) } ∧
    ∀ (b : α) (bs : List α) (i : Nat) (s' : FastForwardSampler),
      s'.cached_state_dict = some sd →
      FastForwardSampler.iterRestart wid s' i (b :: bs) =
        FastForwardSampler.iterRestart wid
          { s' with current_iteration := ci
                    restarting := decide (0 < ci)
                    cached_state_dict := none } i (b :: bs) := by
  constructor
  · simp [FastForwardSampler.load_state_dict, hlen, hw]
  · intro b bs i s' hs'
    conv_lhs => rw [FastForwardSampler.iterRestart]
    conv_rhs => rw [FastForwardSampler.iterRestart]
    simp only [hs', hw]

theorem deferred_multi_worker_restore_witness :
    (1 < ([(0, 2), (1, 5)] : StateDict).length) ∧
    List.lookup 0 ([(0, 2), (1, 5)] : StateDict) = some 2 ∧
    (FastForwardSampler.init.load_state_dict 0 [(0, 2), (1, 5)] false =
        some { FastForwardSampler.init with
               cached_state_dict := some [(0, 2), (1, 5)]
               restarting := true } ∧
      ∀ (b : Nat) (bs : List Nat) (i : Nat) (s' : FastForwardSampler),
        s'.cached_state_dict = some [(0, 2), (1, 5)] →
        FastForwardSampler.iterRestart 0 s' i (b :: bs) =
          FastForwardSampler.iterRestart 0
            { s' with current_iteration := 2
                      restarting := true
                      cached_state_dict := none } i (b :: bs)) :=
  ⟨by decide, by decide,
    deferred_multi_worker_restore 0 2 [(0, 2), (1, 5)] FastForwardSampler.init
      (by decide) (by decide)⟩

/-- C3 counterexample: a sampler configured (via `setup`) with batch
multiplier 2 and raw counter 1 reports `current_iteration = 2`, so the round
trip restores the fresh counter to 2, not to the raw counter value 1. -/
theorem snapshot_round_trip_counterexample :
    (FastForwardSampler.init.load_state_dict 0
        (FastForwardSampler.state_dict
          { restarting := false, current_iteration := 1,
            dataloader_batch_size := some 2, cached_state_dict := none } 0 none)
        false).map (fun s1 => s1.current_iteration) = some 2 ∧
      (2 : Nat) ≠ 1 := by decide

/-- C3 (amended): for a sampler with NO batch multiplier configured and
counter value `c`, loading `state_dict()` into a freshly constructed sampler
resolving to the same worker id sets the fresh counter to exactly `c` and
`restarting` true iff `c` is positive. (With a multiplier `m`, the restored
counter is `c * m` instead — see the counterexample.) -/
theorem snapshot_restore_round_trip (wid c : Nat) (r : Bool)
    (cs : Option StateDict) :
    FastForwardSampler.init.load_state_dict wid
        (FastForwardSampler.state_dict
          { restarting := r, current_iteration := c,
            dataloader_batch_size := none, cached_state_dict := cs } wid none)
        false =
      some { FastForwardSampler.init with
             current_iteration := c
             restarting := decide (0 < c) } := by
  simp [FastForwardSampler.state_dict, FastForwardSampler.compute_current_iteration,
    FastForwardSampler.load_state_dict, List.lookup]

/-- C4 counterexample: a sampler entering `__iter__` in restart mode still
has `restarting = true` after the wrapped producer is exhausted (the
epilogue resets only the counter), contradicting the claimed non-restarting
state. -/
theorem exhaustion_restarting_counterexample :
    (FastForwardSampler.iter 0
        { restarting := true, current_iteration := 0,
          dataloader_batch_size := none, cached_state_dict := none }
        [(0 : Nat)]).2.current_iteration = 0 ∧
      ¬ (FastForwardSampler.iter 0
          { restarting := true, current_iteration := 0,
            dataloader_batch_size := none, cached_state_dict := none }
          [(0 : Nat)]).2.restarting = false := by decide

/-- C4 (amended): after an `__iter__` pass exhausts the wrapped producer the
iteration counter is zero in every mode, but the `restarting` flag is NOT
cleared by exhaustion: with no pending cached state it keeps exactly its
value from before the pass (a subsequent restart-mode pass with counter zero
still yields every item, but the sampler is not in a non-restarting state). -/
theorem exhaustion_resets_counter (wid : Nat) (s : FastForwardSampler)
    (xs : List α) :
    (FastForwardSampler.iter wid s xs).2.current_iteration = 0 ∧
    (s.cached_state_dict = none →
      (FastForwardSampler.iter wid s xs).2.restarting = s.restarting) := by
  constructor
  · unfold FastForwardSampler.iter
    split
    · exact iterRestart_counter_zero wid xs s 0
    · rw [iterNormal_spec]
  · intro hc
    unfold FastForwardSampler.iter
    split
    · rw [iterRestart_no_cache wid xs s 0 hc]
    · rw [iterNormal_spec]

theorem exhaustion_resets_counter_witness :
    (FastForwardSampler.iter 0 FastForwardSampler.init [(5 : Nat)]).2.current_iteration = 0 ∧
    (FastForwardSampler.iter 0 FastForwardSampler.init [(5 : Nat)]).2.restarting =
      FastForwardSampler.init.restarting :=
  ⟨(exhaustion_resets_counter 0 FastForwardSampler.init [5]).1,
    (exhaustion_resets_counter 0 FastForwardSampler.init [5]).2 rfl⟩

/-- C9 counterexample: a batch multiplier of 0 (an int, accepted by `setup`)
is falsy in the Python guard `if self._dataloader_batch_size:`, so with raw
counter 1 the reported count is 1, not the claimed `c * m = 0`. -/
theorem batch_multiplier_counterexample :
    FastForwardSampler.state_dict
        { restarting := false, current_iteration := 1,
          dataloader_batch_size := some 0, cached_state_dict := none } 0 none =
      [(0, 1)] ∧
    (1 : Nat) ≠ 1 * 0 := by decide

/-- C9 (amended): for a POSITIVE configured batch multiplier `m`,
`state_dict()` reports `c * m` from raw counter `c`, and `n * m` when an
explicit `num_batches_processed = n` is supplied (the supplied count takes
precedence over the counter); with no multiplier configured the report is
`c`, respectively `n`. A configured multiplier of 0 is treated like no
multiplier by Python truthiness. -/
theorem batch_multiplier_scaling (wid c n m : Nat) (r : Bool)
    (cs : Option StateDict) (hm : 0 < m) :
    FastForwardSampler.state_dict ⟨r, c, some m, cs⟩ wid none = [(wid, c * m)] ∧
    FastForwardSampler.state_dict ⟨r, c, some m, cs⟩ wid (some n) = [(wid, n * m)] ∧
    FastForwardSampler.state_dict ⟨r, c, none, cs⟩ wid none = [(wid, c)] ∧
    FastForwardSampler.state_dict ⟨r, c, none, cs⟩ wid (some n) = [(wid, n)] := by
  have hm0 : ¬ m = 0 := by omega
  refine ⟨?_, ?_, rfl, rfl⟩ <;>
    simp [FastForwardSampler.state_dict, FastForwardSampler.compute_current_iteration, hm0]

theorem batch_multiplier_scaling_witness :
    (0 < 3) ∧
    (FastForwardSampler.state_dict ⟨false, 4, some 3, none⟩ 1 none = [(1, 12)] ∧
      FastForwardSampler.state_dict ⟨false, 4, some 3, none⟩ 1 (some 2) = [(1, 6)] ∧
      FastForwardSampler.state_dict ⟨false, 4, none, none⟩ 1 none = [(1, 4)] ∧
      FastForwardSampler.state_dict ⟨false, 4, none, none⟩ 1 (some 2) = [(1, 2)]) :=
  ⟨by decide, batch_multiplier_scaling 1 4 2 3 false none (by decide)⟩

/-- C10: attribute access on a `FastForwardSampler` is total — a name absent
from the instance attributes delegates to the wrapped sampler and evaluates
to Python `None` when the wrapped sampler also lacks it, and no access ever
raises AttributeError (the protocol always returns `.ok`). -/
theorem ffs_getattr_total (V : Type) (selfAttrs samplerAttrs : List (String × V))
    (key : String) :
    (List.lookup key selfAttrs = none →
      ffsAttributeAccess selfAttrs samplerAttrs key =
        .ok (match List.lookup key samplerAttrs with
             | some v => .val v
             | none => .pynone)) ∧
    ∃ r, ffsAttributeAccess selfAttrs samplerAttrs key = .ok r := by
  constructor
  · intro h
    simp only [ffsAttributeAccess, pyGetattr, ffsGetattrFallback, h]
  · unfold ffsAttributeAccess pyGetattr
    cases List.lookup key selfAttrs with
    | some v => exact ⟨.val v, rfl⟩
    | none => exact ⟨ffsGetattrFallback selfAttrs samplerAttrs key, rfl⟩

theorem ffs_getattr_total_witness :
    (List.lookup "bar" [("restarting", (0 : Nat))] = none) ∧
    ffsAttributeAccess [("restarting", (0 : Nat))] [("foo", 7)] "bar" =
      .ok .pynone ∧
    ∃ r, ffsAttributeAccess [("restarting", (0 : Nat))] [("foo", 7)] "bar" = .ok r :=
  ⟨by decide, (ffs_getattr_total Nat [("restarting", 0)] [("foo", 7)] "bar").1 (by decide),
    (ffs_getattr_total Nat [("restarting", 0)] [("foo", 7)] "bar").2⟩

/-- C6: worker-count mismatch is fatal and atomic — whenever the saved
entry's `num_workers` differs from the live iterator's worker count,
`cycle_to_next_worker` raises (the assert precedes everything else), and the
error carries the iterator exactly as it was: the cursor has not been
advanced and no pipeline reset has been triggered. -/
theorem worker_count_mismatch_fatal (it : LiveIter) (current : WorkerCycleState)
    (h : current.num_workers ≠ it.numWorkers) :
    cycle_to_next_worker it current = .error it := by
  simp [cycle_to_next_worker, h]

theorem worker_count_mismatch_fatal_witness :
    ((⟨3, some 1⟩ : WorkerCycleState).num_workers ≠ (LiveIter.multi 2 0 0).numWorkers) ∧
    cycle_to_next_worker (.multi 2 0 0) ⟨3, some 1⟩ = .error (.multi 2 0 0) :=
  ⟨by decide, worker_count_mismatch_fatal (.multi 2 0 0) ⟨3, some 1⟩ (by decide)⟩

/-- C5 counterexample: a live multiprocessing iterator with worker count one
does NOT record `previous_worker = None` — `fetch_previous_worker_state_dict`
takes the multiprocessing branch and computes `previous_worker = 0`. -/
theorem worker_count_one_counterexample :
    (fetch_previous_worker_state_dict (.multi 1 0 0)).1.num_workers = 1 ∧
    ¬ (fetch_previous_worker_state_dict (.multi 1 0 0)).1.previous_worker = none := by
  decide

/-- C5 (amended): `previous_worker = None` is recorded exactly for live
iterators that are not multiprocessing iterators; a multiprocessing iterator
with worker count one records `previous_worker = 0`, and restoring that
state via `cycle_to_next_worker` leaves the worker-selection cursor position
unchanged (with one worker the cursor can only sit at 0) while still
triggering the pipeline reset. -/
theorem worker_count_one_degeneracy (pos rc : Nat) (hpos : pos < 1) :
    (∀ m, (fetch_previous_worker_state_dict (.single m)).1.previous_worker = none) ∧
    (fetch_previous_worker_state_dict (.multi 1 pos rc)).1.previous_worker = some 0 ∧
    cycle_to_next_worker (.multi 1 pos rc) ⟨1, some 0⟩ =
      .ok (.multi 1 pos (rc + 1)) := by
  have hp0 : pos = 0 := by omega
  subst hp0
  exact ⟨fun m => rfl, rfl, rfl⟩

theorem worker_count_one_degeneracy_witness :
    (0 < 1) ∧
    ((∀ m, (fetch_previous_worker_state_dict (.single m)).1.previous_worker = none) ∧
      (fetch_previous_worker_state_dict (.multi 1 0 5)).1.previous_worker = some 0 ∧
      cycle_to_next_worker (.multi 1 0 5) ⟨1, some 0⟩ = .ok (.multi 1 0 6)) :=
  ⟨by decide, worker_count_one_degeneracy 0 5 (by decide)⟩

/-- C8: restoring into a dataloader whose `sampler` and `batch_sampler` are
both not `FastForwardSampler` instances is a silent no-op —
`find_fast_forward_samplers` yields nothing, and
`dataloader_load_state_dict` returns without raising and without modifying
the dataloader, for every supplied state list (even an empty one). -/
theorem restore_non_trackable_noop (wid t1 t2 : Nat) (state : List StageEntry) :
    find_fast_forward_samplers ⟨.plain t1, .plain t2⟩ = none ∧
    dataloader_load_state_dict wid ⟨.plain t1, .plain t2⟩ state =
      some ⟨.plain t1, .plain t2⟩ :=
  ⟨rfl, rfl⟩

theorem PyEntries.append_nil (xs : PyEntries) : xs.append .nil = xs := by
  suffices h : ∀ (n : Nat) (ys : PyEntries), szE ys ≤ n → ys.append .nil = ys from
    h (szE xs) xs le_rfl
  intro n
  induction n with
  | zero =>
    intro ys hy
    cases ys with
    | nil => rfl
    | cons k v rest => exfalso; simp [szE] at hy
  | succ n ih =>
    intro ys hy
    cases ys with
    | nil => rfl
    | cons k v rest =>
      have hr : szE rest ≤ n := by simp only [szE] at hy; omega
      simp [PyEntries.append, ih rest hr]

theorem PyEntries.append_assoc (xs ys zs : PyEntries) :
    (xs.append ys).append zs = xs.append (ys.append zs) := by
  suffices h : ∀ (n : Nat) (as : PyEntries), szE as ≤ n →
      (as.append ys).append zs = as.append (ys.append zs) from
    h (szE xs) xs le_rfl
  intro n
  induction n with
  | zero =>
    intro as ha
    cases as with
    | nil => rfl
    | cons k v rest => exfalso; simp [szE] at ha
  | succ n ih =>
    intro as ha
    cases as with
    | nil => rfl
    | cons k v rest =>
      have hr : szE rest ≤ n := by simp only [szE] at ha; omega
      simp [PyEntries.append, ih rest hr]

theorem sanitize_marker_free_aux (fuel : Nat) :
    (∀ (v : PyVal) (acc : List PyVal), szV v ≤ fuel → markerFree v = true →
        sanitize v acc = some (v, v, acc)) ∧
    (∀ (es postAcc outAcc : PyEntries) (acc : List PyVal), szE es ≤ fuel →
        markerFreeEntries es = true →
        sanitizeDict es postAcc outAcc acc =
          some (.dict (postAcc.append es), .dict (outAcc.append es), acc)) ∧
    (∀ (xs : PyList) (acc : List PyVal), szL xs ≤ fuel →
        markerFreeList xs = true → sanitizeSeq xs acc = some (xs, xs, acc)) ∧
    (∀ (fs : PyFields) (acc : List PyVal), szF fs ≤ fuel →
        markerFreeFields fs = true → sanitizeFields fs acc = some (fs, fs, acc)) := by
  induction fuel with
  | zero =>
    refine ⟨?_, ?_, ?_, ?_⟩
    · intro v acc hsz _
      exfalso; cases v <;> simp [szV] at hsz
    · intro es postAcc outAcc acc hsz _
      cases es with
      | nil => simp [sanitizeDict, PyEntries.append_nil]
      | cons k v rest => exfalso; simp [szE] at hsz
    · intro xs acc hsz _
      cases xs with
      | nil => simp [sanitizeSeq]
      | cons v rest => exfalso; simp [szL] at hsz
    · intro fs acc hsz _
      cases fs with
      | nil => simp [sanitizeFields]
      | cons nm v rest => exfalso; simp [szF] at hsz
  | succ n ih =>
    obtain ⟨ihV, ihE, ihL, ihF⟩ := ih
    refine ⟨?_, ?_, ?_, ?_⟩
    · intro v acc hsz hmf
      cases v with
      | int n0 => simp [sanitize]
      | str s0 => simp [sanitize]
      | tensor t => simp [sanitize]
      | dict es =>
        have h1 : szE es ≤ n := by simp only [szV] at hsz; omega
        have h2 : markerFreeEntries es = true := by simpa [markerFree] using hmf
        have h3 := ihE es .nil .nil acc h1 h2
        simpa [sanitize, PyEntries.append] using h3
      | seq xs =>
        have h1 : szL xs ≤ n := by simp only [szV] at hsz; omega
        have h2 : markerFreeList xs = true := by simpa [markerFree] using hmf
        simp [sanitize, ihL xs acc h1 h2]
      | namedtup xs =>
        have h1 : szL xs ≤ n := by simp only [szV] at hsz; omega
        have h2 : markerFreeList xs = true := by simpa [markerFree] using hmf
        simp [sanitize, ihL xs acc h1 h2]
      | dataclass fs =>
        have h1 : szF fs ≤ n := by simp only [szV] at hsz; omega
        have h2 : markerFreeFields fs = true := by simpa [markerFree] using hmf
        simp [sanitize, ihF fs acc h1 h2]
    · intro es postAcc outAcc acc hsz hmf
      cases es with
      | nil => simp [sanitizeDict, PyEntries.append_nil]
      | cons k v rest =>
        have hk : ¬ (k = PyKey.str PL_SAMPLERS) := by
          intro hcon
          simp [markerFreeEntries, hcon] at hmf
        have hparts : markerFree v = true ∧ markerFreeEntries rest = true := by
          simpa [markerFreeEntries, hk] using hmf
        have hszv : szV v ≤ n := by simp only [szE] at hsz; omega
        have hszr : szE rest ≤ n := by simp only [szE] at hsz; omega
        simp only [sanitizeDict, if_neg hk, ihV v acc hszv hparts.1]
        rw [ihE rest (postAcc.append (.cons k v .nil))
          (outAcc.append (.cons k v .nil)) acc hszr hparts.2]
        rw [PyEntries.append_assoc, PyEntries.append_assoc]
        rfl
    · intro xs acc hsz hmf
      cases xs with
      | nil => simp [sanitizeSeq]
      | cons v rest =>
        have hszv : szV v ≤ n := by simp only [szL] at hsz; omega
        have hszr : szL rest ≤ n := by simp only [szL] at hsz; omega
        have hparts : markerFree v = true ∧ markerFreeList rest = true := by
          simpa [markerFreeList] using hmf
        simp [sanitizeSeq, ihV v acc hszv hparts.1, ihL rest acc hszr hparts.2]
    · intro fs acc hsz hmf
      cases fs with
      | nil => simp [sanitizeFields]
      | cons nm v rest =>
        have hszv : szV v ≤ n := by simp only [szF] at hsz; omega
        have hszr : szF rest ≤ n := by simp only [szF] at hsz; omega
        have hparts : markerFree v = true ∧ markerFreeFields rest = true := by
          simpa [markerFreeFields] using hmf
        simp [sanitizeFields, ihV v acc hszv hparts.1, ihF rest acc hszr hparts.2]

theorem sanitize_marker_free (v : PyVal) (acc : List PyVal)
    (hmf : markerFree v = true) : sanitize v acc = some (v, v, acc) :=
  (sanitize_marker_free_aux (szV v)).1 v acc le_rfl hmf

/-- C7 counterexample: the stripping function does NOT leave its input batch
unmodified — on the batch `{"data": 7, PL_SAMPLERS: {"id": tensor([0])}}`
the in-place `v.pop("id")` removes the `"id"` entry from the nested snapshot
dict, so after the call the input is worth `{"data": 7, PL_SAMPLERS: {}}`
(first component of the result), which differs from the batch passed in. -/
theorem sanetize_purity_counterexample :
    sanitize (.dict (.cons (.str "data") (.int 7)
        (.cons (.str PL_SAMPLERS)
          (.dict (.cons (.str "id") (.tensor [0]) .nil)) .nil))) []
      = some (.dict (.cons (.str "data") (.int 7)
          (.cons (.str PL_SAMPLERS) (.dict .nil) .nil)), .int 7, [.dict .nil]) ∧
    ¬ (PyVal.dict (.cons (.str "data") (.int 7)
          (.cons (.str PL_SAMPLERS) (.dict .nil) .nil)) =
        PyVal.dict (.cons (.str "data") (.int 7)
          (.cons (.str PL_SAMPLERS)
            (.dict (.cons (.str "id") (.tensor [0]) .nil)) .nil))) := by
  constructor
  · rfl
  · intro h
    simp at h

/-- C7 (amended): the stripping function preserves shape and container types
and acts purely on marker-free batches (returning the input unchanged and an
untouched accumulator); a mapping of the canonical produced shape
`{"data": payload, PL_SAMPLERS: {"id": tensor, sampler: {wid:
{"current_iteration": tensor}}}}` is replaced wholesale by its `"data"`
payload, exactly one extracted state dictionary is appended to the
accumulator for the marker, with the worker id and the counter unwrapped to
scalars by taking the last element of their vectorized values — but the
input batch is NOT left unmodified: the marker's snapshot dict loses its
`"id"` entry in place. -/
theorem sanetize_batch_spec (d : PyVal) (acc : List PyVal) (ws cs : List Nat)
    (wid ci : Nat) (sname : String) (hd : markerFree d = true)
    (hws : ws.getLast? = some wid) (hcs : cs.getLast? = some ci) :
    (∀ (v : PyVal) (acc0 : List PyVal), markerFree v = true →
        sanitize v acc0 = some (v, v, acc0)) ∧
    sanitize (.dict (.cons (.str "data") d (.cons (.str PL_SAMPLERS)
        (.dict (.cons (.str "id") (.tensor ws)
          (.cons (.str sname) (.dict (.cons (.int wid)
            (.dict (.cons (.str "current_iteration") (.tensor cs) .nil)) .nil))
            .nil))) .nil))) acc =
      some (.dict (.cons (.str "data") d (.cons (.str PL_SAMPLERS)
          (.dict (.cons (.str sname) (.dict (.cons (.int wid)
            (.dict (.cons (.str "current_iteration") (.tensor cs) .nil)) .nil))
            .nil)) .nil)),
        d,
        acc ++ [.dict (.cons (.str sname) (.dict (.cons (.int wid)
          (.dict (.cons (.str "current_iteration") (.int ci) .nil)) .nil)) .nil)]) := by
  refine ⟨fun v acc0 h => sanitize_marker_free v acc0 h, ?_⟩
  have hne : ¬ (PyKey.str "data" = PyKey.str PL_SAMPLERS) := by decide
  simp only [sanitize, sanitizeDict, if_neg hne, sanitize_marker_free d acc hd]
  simp only [sanitizeDict, if_pos rfl, PyEntries.lookupKey, if_neg hne,
    PyEntries.removeKey, extractSamplerStates, PyEntries.append, hws, hcs]
  simp [PyEntries.lookupKey, PyEntries.removeKey, extractSamplerStates,
    PyEntries.append, hws, hcs]

theorem sanetize_batch_spec_witness :
    markerFree (.int 7) = true ∧
    ([0, 3] : List Nat).getLast? = some 3 ∧
    ([5, 9] : List Nat).getLast? = some 9 ∧
    ((∀ (v : PyVal) (acc0 : List PyVal), markerFree v = true →
        sanitize v acc0 = some (v, v, acc0)) ∧
      sanitize (.dict (.cons (.str "data") (.int 7) (.cons (.str PL_SAMPLERS)
          (.dict (.cons (.str "id") (.tensor [0, 3])
            (.cons (.str "gen") (.dict (.cons (.int 3)
              (.dict (.cons (.str "current_iteration") (.tensor [5, 9]) .nil)) .nil))
              .nil))) .nil))) [] =
        some (.dict (.cons (.str "data") (.int 7) (.cons (.str PL_SAMPLERS)
            (.dict (.cons (.str "gen") (.dict (.cons (.int 3)
              (.dict (.cons (.str "current_iteration") (.tensor [5, 9]) .nil)) .nil))
              .nil)) .nil)),
          .int 7,
          [.dict (.cons (.str "gen") (.dict (.cons (.int 3)
            (.dict (.cons (.str "current_iteration") (.int 9) .nil)) .nil)) .nil)])) :=
  ⟨rfl, rfl, rfl,
    sanetize_batch_spec (.int 7) [] [0, 3] [5, 9] 3 9 "gen" rfl rfl rfl⟩
